import Mathlib

/-!
Shallow embedding of `src/sound/soc/codecs/rt5670-dsp.c` (RT5670 ALSA SoC
voice-DSP control driver) and proofs about its busy-wait handshake protocol
and firmware mode-table interpreter.

The bus capability (`snd_soc_write` / `snd_soc_read`) is modelled by an
environment `Env : Nat -> Int` giving the integer response of the n-th bus
operation, together with an explicit state `St` recording the next response
index and the trace of operations issued so far.  C integer conventions are
kept: a bus call's return value is an `Int`, an error is a negative value,
and an assignment of that value to a C `unsigned int` is `toUnsigned`.
-/

namespace RT5670

/-- A single observable operation issued by the driver core: a bus register
write, a bus register read, a read-modify-write (`snd_soc_update_bits`), or
a millisecond delay (`mdelay`). -/
inductive Op where
  | busWrite (reg val : Nat)
  | busRead (reg : Nat)
  | updateBits (reg mask val : Nat)
  | mdelay (ms : Nat)
deriving DecidableEq

/-- Interpreter state: index of the next bus response to consume and the
trace of operations issued so far. -/
structure St where
  pos : Nat
  trace : List Op
deriving DecidableEq

/-- Bus environment: the `Int` result returned for the n-th bus operation
(negative = error; for reads, the value read). -/
abbrev Env := Nat → Int

/-- Reinterpretation of a C `int` as a C `unsigned int` (assignment of a
`snd_soc_read` result to `unsigned int dsp_val`). -/
def toUnsigned (i : Int) : Nat := (i % (2 ^ 32 : Int)).toNat

/-- DSP command/status register (`0xe0`, per the comment in
`rt5670_dsp_write`'s kernel-doc). -/
def RT5670_DSP_CTRL1 : Nat := 0xe0

/-- DSP address register (`0xe1`, per the same comment). -/
def RT5670_DSP_CTRL2 : Nat := 0xe1

/-- DSP data register (`0xe2`, per the same comment). -/
def RT5670_DSP_CTRL3 : Nat := 0xe2

/-- Modelled from the spec: the fixed data-readback register read at the end
of `readRegister` (step 11).  Its numeric index lives in the missing header
`rt5670-dsp.h`; only its identity matters for the claims. -/
def RT5670_DSP_CTRL5 : Nat := 0xe4

/-- Modelled from the spec: the busy bit of the command/status register.
The mask's numeric value lives in the missing header; only "some fixed
nonzero mask" matters for the claims. -/
def RT5670_DSP_BUSY_MASK : Nat := 0x8000

/-- Modelled from the spec: 16-bit transfer-width selector of the command
word (missing header constant; value immaterial). -/
def RT5670_DSP_I2C_AL_16 : Nat := 0x0002

/-- Modelled from the spec: zero-length payload marker (missing header
constant; value immaterial). -/
def RT5670_DSP_DL_0 : Nat := 0x0000

/-- Modelled from the spec: 1-byte data-length selector (missing header
constant; value immaterial). -/
def RT5670_DSP_DL_1 : Nat := 0x0004

/-- Modelled from the spec: 2-byte data-length selector (missing header
constant; value immaterial). -/
def RT5670_DSP_DL_2 : Nat := 0x0008

/-- Modelled from the spec: read-flag bit of the command word (missing
header constant; value immaterial). -/
def RT5670_DSP_RW_MASK : Nat := 0x2000

/-- Modelled from the spec: "command enable" bit (missing header constant;
value immaterial). -/
def RT5670_DSP_CMD_EN : Nat := 0x0001

/-- Modelled from the spec: "memory write" command code (missing header
constant; value immaterial). -/
def RT5670_DSP_CMD_MW : Nat := 0x0100

/-- Modelled from the spec: "memory read" command code (missing header
constant; value immaterial). -/
def RT5670_DSP_CMD_MR : Nat := 0x0200

/-- Modelled from the spec: "register read" command code (missing header
constant; value immaterial). -/
def RT5670_DSP_CMD_RR : Nat := 0x0300

/-- Modelled from the spec: the fixed clock-rate selector
`RT5670_DSP_CLK_96K` (missing header constant; value immaterial). -/
def RT5670_DSP_CLK_96K : Nat := 0x0010

/-- `#define DSP_CLK_RATE RT5670_DSP_CLK_96K` (rt5670-dsp.c line 22). -/
def DSP_CLK_RATE : Nat := RT5670_DSP_CLK_96K

/-- Modelled from the spec: index of the digital-misc register holding the
DSP reset bit (missing header constant; value immaterial). -/
def RT5670_DIG_MISC : Nat := 0xfa

/-- Modelled from the spec: the coprocessor reset bit toggled by the
power-up hook (missing header constant; value immaterial). -/
def RT5670_RST_DSP : Nat := 0x0002

/-- Linux `EBUSY` errno (the code returns `-EBUSY`). -/
def EBUSY : Int := 16

/-- Linux `EINVAL` errno (the code returns `-EINVAL`). -/
def EINVAL : Int := 22

/-- Bus write capability: records the operation and consumes the next
environment response as the C return value. -/
def snd_soc_write (env : Env) (st : St) (reg val : Nat) : Int × St :=
  (env st.pos, ⟨st.pos + 1, st.trace ++ [Op.busWrite reg val]⟩)

/-- Bus read capability: records the operation and consumes the next
environment response as the C return value. -/
def snd_soc_read (env : Env) (st : St) (reg : Nat) : Int × St :=
  (env st.pos, ⟨st.pos + 1, st.trace ++ [Op.busRead reg]⟩)

/-- `snd_soc_update_bits`: its return value is ignored by every caller in
this file, so it is modelled as recording the operation only. -/
def snd_soc_update_bits (st : St) (reg mask val : Nat) : St :=
  ⟨st.pos, st.trace ++ [Op.updateBits reg mask val]⟩

/-- `mdelay`: records the delay in the trace. -/
def mdelay (st : St) (ms : Nat) : St :=
  ⟨st.pos, st.trace ++ [Op.mdelay ms]⟩

/-- Loop body of `rt5670_dsp_done` (lines 39-44).  The C loop carries an
ascending counter with exit test `count > 10`; here the counter is encoded
as the remaining budget `fuel = 11 - count`, so `count > 10` (i.e.
`count = 11`) is exactly `fuel = 0`.  `dsp_val` is the unsigned value of
the last `snd_soc_read` of `RT5670_DSP_CTRL1`. -/
def rt5670_dsp_done_aux (env : Env) (dsp_val : Nat) (st : St) : Nat → Int × St
  | 0 =>
    if dsp_val &&& RT5670_DSP_BUSY_MASK ≠ 0 then (-EBUSY, st) else (0, st)
  | fuel + 1 =>
    if dsp_val &&& RT5670_DSP_BUSY_MASK ≠ 0 then
      match snd_soc_read env st RT5670_DSP_CTRL1 with
      | (r, st') => rt5670_dsp_done_aux env (toUnsigned r) st' fuel
    else (0, st)

/-- `rt5670_dsp_done` (lines 34-47): read the command/status register, then
spin while the busy bit is set, failing with `-EBUSY` once the counter
exceeds 10 (i.e. after the initial read plus 11 re-reads all saw busy). -/
def rt5670_dsp_done (env : Env) (st : St) : Int × St :=
  match snd_soc_read env st RT5670_DSP_CTRL1 with
  | (r, st') => rt5670_dsp_done_aux env (toUnsigned r) st' 11

/-- `rt5670_dsp_write` (lines 60-94): write `addr` to the address register,
`data` to the data register, the composed memory-write command word to the
command register, then wait for ready; the first failing step's return
value is propagated (`goto err`). -/
def rt5670_dsp_write (env : Env) (st : St) (addr data : Nat) : Int × St :=
  match snd_soc_write env st RT5670_DSP_CTRL2 addr with
  | (ret, st1) =>
    if ret < 0 then (ret, st1) else
    match snd_soc_write env st1 RT5670_DSP_CTRL3 data with
    | (ret, st2) =>
      if ret < 0 then (ret, st2) else
      match snd_soc_write env st2 RT5670_DSP_CTRL1
          (RT5670_DSP_I2C_AL_16 ||| RT5670_DSP_DL_2 ||| RT5670_DSP_CMD_MW |||
            DSP_CLK_RATE ||| RT5670_DSP_CMD_EN) with
      | (ret, st3) =>
        if ret < 0 then (ret, st3) else
        match rt5670_dsp_done env st3 with
        | (ret, st4) =>
          if ret < 0 then (ret, st4) else (0, st4)

/-- `rt5670_dsp_read` (lines 107-192): wait, address write, 16-bit
memory-read command, wait, sub-register `0x26` address write, 1-byte
register-read command, wait, sub-register `0x25` address write, 1-byte
register-read command, wait, final data-readback read; any failing step's
return value is propagated (`goto err`).  The C function's return type is
`unsigned int`; the value returned here is the C `int` expression before
that final implicit conversion. -/
def rt5670_dsp_read (env : Env) (st : St) (reg : Nat) : Int × St :=
  match rt5670_dsp_done env st with
  | (ret, st0) =>
    if ret < 0 then (ret, st0) else
    match snd_soc_write env st0 RT5670_DSP_CTRL2 reg with
    | (ret, st1) =>
      if ret < 0 then (ret, st1) else
      match snd_soc_write env st1 RT5670_DSP_CTRL1
          (RT5670_DSP_I2C_AL_16 ||| RT5670_DSP_DL_0 ||| RT5670_DSP_RW_MASK |||
            RT5670_DSP_CMD_MR ||| DSP_CLK_RATE ||| RT5670_DSP_CMD_EN) with
      | (ret, st2) =>
        if ret < 0 then (ret, st2) else
        match rt5670_dsp_done env st2 with
        | (ret, st3) =>
          if ret < 0 then (ret, st3) else
          match snd_soc_write env st3 RT5670_DSP_CTRL2 0x26 with
          | (ret, st4) =>
            if ret < 0 then (ret, st4) else
            match snd_soc_write env st4 RT5670_DSP_CTRL1
                (RT5670_DSP_DL_1 ||| RT5670_DSP_CMD_RR ||| RT5670_DSP_RW_MASK |||
                  DSP_CLK_RATE ||| RT5670_DSP_CMD_EN) with
            | (ret, st5) =>
              if ret < 0 then (ret, st5) else
              match rt5670_dsp_done env st5 with
              | (ret, st6) =>
                if ret < 0 then (ret, st6) else
                match snd_soc_write env st6 RT5670_DSP_CTRL2 0x25 with
                | (ret, st7) =>
                  if ret < 0 then (ret, st7) else
                  match snd_soc_write env st7 RT5670_DSP_CTRL1
                      (RT5670_DSP_DL_1 ||| RT5670_DSP_CMD_RR ||| RT5670_DSP_RW_MASK |||
                        DSP_CLK_RATE ||| RT5670_DSP_CMD_EN) with
                  | (ret, st8) =>
                    if ret < 0 then (ret, st8) else
                    match rt5670_dsp_done env st8 with
                    | (ret, st9) =>
                      if ret < 0 then (ret, st9) else
                      match snd_soc_read env st9 RT5670_DSP_CTRL5 with
                      | (ret, stA) =>
                        if ret < 0 then (ret, stA) else (ret, stA)

/-- A firmware image's byte buffer (`rt5670_dsp_fw->data`, an array of
`u8`; its `size` is the list's length). -/
abbrev FwImage := List Nat

/-- Modelled from the spec: `rt5670_write_fw` is declared in the missing
header `rt5670.h`, not in `src/`.  Per spec §4.2 step 5 it replays
`tab_num` five-byte entries starting at byte offset `pos`, decoding each
into a (register address, data value) pair and issuing it through
`rt5670_dsp_write`, aborting on (and surfacing) the first handshake
failure and returning 0 once all entries are applied.  The exact byte
pairing within an entry is not recorded in the available sources; it is
taken as big-endian address then big-endian data (fifth byte unused). -/
def rt5670_write_fw (env : Env) (st : St) (data : FwImage) (pos : Nat) :
    Nat → Int × St
  | 0 => (0, st)
  | tab + 1 =>
    match rt5670_dsp_write env st
        (((data.getD pos 0) <<< 8) ||| data.getD (pos + 1) 0)
        (((data.getD (pos + 2) 0) <<< 8) ||| data.getD (pos + 3) 0) with
    | (ret, st') =>
      if ret < 0 then (ret, st')
      else rt5670_write_fw env st' data (pos + 5) tab

/-- `rt5670_dsp_set_mode` (lines 259-284).  `fw` is the global
`rt5670_dsp_fw` (NULL = `none`).  `ret` starts at `-EINVAL` and is
returned unchanged when the firmware is absent or `mode > n`; the bounds
check `pos + tab_num * 5 > size` also returns `-EINVAL`.  The directory
accesses `data[0]`, `data[mode*3+2]`, `data[mode*3+1]`, `data[mode*3+3]`
are not bounds-checked in the C; an out-of-range index is undefined
behaviour, modelled by the `none` result of `List.get?`. -/
def rt5670_dsp_set_mode (env : Env) (st : St) (fw : Option FwImage)
    (mode : Nat) : Option (Int × St) :=
  match fw with
  | none => some (-EINVAL, st)
  | some data =>
    match data[0]? with
    | none => none
    | some n =>
      if mode ≤ n then
        match data[mode * 3 + 2]?, data[mode * 3 + 1]?,
            data[mode * 3 + 3]? with
        | some lo, some hi, some tn =>
          if (lo ||| (hi <<< 8)) + tn * 5 > data.length then
            some (-EINVAL, st)
          else
            some (rt5670_write_fw env st data (lo ||| (hi <<< 8)) tn)
        | _, _, _ => none
      else some (-EINVAL, st)

/-- `rt5670_dsp_fw_loaded` (lines 332-339): the firmware-loaded callback.
`fw` is the delivered buffer (NULL = `none`), `stored` the current value of
the global `rt5670_dsp_fw`; the result is the global's new value. -/
def rt5670_dsp_fw_loaded (fw : Option FwImage) (stored : Option FwImage) :
    Option FwImage :=
  match fw with
  | some f => some f
  | none => stored

/-- Modelled from the spec: the DAPM event tag dispatched to
`rt5670_dsp_event`; the numeric `SND_SOC_DAPM_POST_PMU`/`POST_PMD` codes
live in missing framework headers, so the switch is modelled as a
three-case tag (power-up, power-down, anything else). -/
inductive DapmEvent where
  | postPmu
  | postPmd
  | other
deriving DecidableEq

/-- `rt5670_dsp_event` (lines 286-311): on power-down issue the best-effort
`rt5670_dsp_write(0x22f9, 1)` (result ignored); on power-up toggle the DSP
reset bit high then low, `mdelay(10)`, then call `rt5670_dsp_set_mode`
with the current requested mode (result ignored); return 0 in all cases. -/
def rt5670_dsp_event (env : Env) (st : St) (fw : Option FwImage)
    (dsp_sw : Nat) (event : DapmEvent) : Option (Int × St) :=
  match event with
  | DapmEvent.postPmd =>
    match rt5670_dsp_write env st 0x22f9 1 with
    | (_, st') => some (0, st')
  | DapmEvent.postPmu =>
    match rt5670_dsp_set_mode env
        (mdelay (snd_soc_update_bits
          (snd_soc_update_bits st RT5670_DIG_MISC RT5670_RST_DSP RT5670_RST_DSP)
          RT5670_DIG_MISC RT5670_RST_DSP 0) 10) fw dsp_sw with
    | none => none
    | some p => some (0, p.2)
  | DapmEvent.other => some (0, st)

/-! ### Specification-side definitions

The following definitions follow the words of spec.md §4.1 (`waitReady`,
`writeRegister`, `readRegister`), not the C source; they exist to be
compared with the source-derived functions above (claims C2 and C3). -/

/-- Spec §4.1: the named step of an operation at which the bus transport
failed (`BusError{stage}`). -/
inductive Stage where
  | addrStage
  | dataStage
  | cmdStage
  | subHiStage
  | cmdHiStage
  | subLoStage
  | cmdLoStage
  | readbackStage
deriving DecidableEq

/-- Spec §7 error kinds relevant to the handshake: `Busy` (poll budget
exhausted) and `BusError{stage}` carrying the transport's negative code. -/
inductive SpecErr where
  | busy
  | busErr (stage : Stage) (code : Int)
deriving DecidableEq

/-- The C error code corresponding to a spec error kind. -/
def errCode : SpecErr → Int
  | SpecErr.busy => -EBUSY
  | SpecErr.busErr _ c => c

/-- Spec §4.1 step 3 of `writeRegister`: command word composed from 16-bit
transfer width, 2-byte data length, "memory write" code, clock-rate
selector and command-enable bit. -/
def memWriteCmdWord : Nat :=
  RT5670_DSP_I2C_AL_16 ||| RT5670_DSP_DL_2 ||| RT5670_DSP_CMD_MW |||
    DSP_CLK_RATE ||| RT5670_DSP_CMD_EN

/-- Spec §4.1 step 3 of `readRegister`: 16-bit width, zero-length payload
marker, read-flag bit, "memory read" code, clock-rate selector,
command-enable bit. -/
def memReadCmdWord : Nat :=
  RT5670_DSP_I2C_AL_16 ||| RT5670_DSP_DL_0 ||| RT5670_DSP_RW_MASK |||
    RT5670_DSP_CMD_MR ||| DSP_CLK_RATE ||| RT5670_DSP_CMD_EN

/-- Spec §4.1 steps 6 and 9 of `readRegister`: 1-byte length, "register
read" code, read-flag, clock-rate selector, command-enable bit. -/
def regReadCmdWord : Nat :=
  RT5670_DSP_DL_1 ||| RT5670_DSP_CMD_RR ||| RT5670_DSP_RW_MASK |||
    DSP_CLK_RATE ||| RT5670_DSP_CMD_EN

/-- Spec §4.1 `waitReady`, poll loop: while the busy bit is set, re-read,
incrementing an attempt counter; after more than 10 attempts fail with
`Busy`.  The ascending attempt counter is encoded as the remaining budget
(`attemptsLeft = 11 - attempts`, so "more than 10 attempts" is
`attemptsLeft = 0`). -/
def specWaitReady_aux (env : Env) (status : Nat) (st : St) :
    Nat → (Except SpecErr Unit) × St
  | 0 =>
    if status &&& RT5670_DSP_BUSY_MASK ≠ 0 then (Except.error SpecErr.busy, st)
    else (Except.ok (), st)
  | attemptsLeft + 1 =>
    if status &&& RT5670_DSP_BUSY_MASK ≠ 0 then
      match snd_soc_read env st RT5670_DSP_CTRL1 with
      | (r, st') => specWaitReady_aux env (toUnsigned r) st' attemptsLeft
    else (Except.ok (), st)

/-- Spec §4.1 `waitReady`: read the command/status register, then spin on
the busy bit with a bounded retry count. -/
def specWaitReady (env : Env) (st : St) : (Except SpecErr Unit) × St :=
  match snd_soc_read env st RT5670_DSP_CTRL1 with
  | (r, st') => specWaitReady_aux env (toUnsigned r) st' 11

/-- Spec §4.1 `writeRegister(addr, data)`, steps 1-5: address write
(`BusError(stage=Addr)` on failure), data write (`stage=Data`), composed
command-word write (`stage=Cmd`), `waitReady` (`Busy` on exhaustion), then
success. -/
def specWriteRegister (env : Env) (st : St) (addr data : Nat) :
    (Except SpecErr Unit) × St :=
  match snd_soc_write env st RT5670_DSP_CTRL2 addr with
  | (ret, st1) =>
    if ret < 0 then (Except.error (SpecErr.busErr Stage.addrStage ret), st1) else
    match snd_soc_write env st1 RT5670_DSP_CTRL3 data with
    | (ret, st2) =>
      if ret < 0 then (Except.error (SpecErr.busErr Stage.dataStage ret), st2) else
      match snd_soc_write env st2 RT5670_DSP_CTRL1 memWriteCmdWord with
      | (ret, st3) =>
        if ret < 0 then (Except.error (SpecErr.busErr Stage.cmdStage ret), st3) else
        match specWaitReady env st3 with
        | (Except.error e, st4) => (Except.error e, st4)
        | (Except.ok _, st4) => (Except.ok (), st4)

/-- Spec §4.1 `readRegister(addr)`, steps 1-11: wait; address write;
16-bit memory-read command write; wait; sub-register `0x26` address write;
1-byte register-read command write; wait; sub-register `0x25` address
write; the same register-read command write; wait; final read of the fixed
data-readback register, returned as the logical value.  Any failing bus
write or `waitReady` aborts the whole read and surfaces the first error;
the final readback's bus error is likewise propagated (the source checks
it; spec step 11 is silent on its failure). -/
def specReadRegister (env : Env) (st : St) (addr : Nat) :
    (Except SpecErr Int) × St :=
  match specWaitReady env st with
  | (Except.error e, st0) => (Except.error e, st0)
  | (Except.ok _, st0) =>
    match snd_soc_write env st0 RT5670_DSP_CTRL2 addr with
    | (ret, st1) =>
      if ret < 0 then (Except.error (SpecErr.busErr Stage.addrStage ret), st1) else
      match snd_soc_write env st1 RT5670_DSP_CTRL1 memReadCmdWord with
      | (ret, st2) =>
        if ret < 0 then (Except.error (SpecErr.busErr Stage.cmdStage ret), st2) else
        match specWaitReady env st2 with
        | (Except.error e, st3) => (Except.error e, st3)
        | (Except.ok _, st3) =>
          match snd_soc_write env st3 RT5670_DSP_CTRL2 0x26 with
          | (ret, st4) =>
            if ret < 0 then (Except.error (SpecErr.busErr Stage.subHiStage ret), st4) else
            match snd_soc_write env st4 RT5670_DSP_CTRL1 regReadCmdWord with
            | (ret, st5) =>
              if ret < 0 then (Except.error (SpecErr.busErr Stage.cmdHiStage ret), st5) else
              match specWaitReady env st5 with
              | (Except.error e, st6) => (Except.error e, st6)
              | (Except.ok _, st6) =>
                match snd_soc_write env st6 RT5670_DSP_CTRL2 0x25 with
                | (ret, st7) =>
                  if ret < 0 then (Except.error (SpecErr.busErr Stage.subLoStage ret), st7) else
                  match snd_soc_write env st7 RT5670_DSP_CTRL1 regReadCmdWord with
                  | (ret, st8) =>
                    if ret < 0 then (Except.error (SpecErr.busErr Stage.cmdLoStage ret), st8) else
                    match specWaitReady env st8 with
                    | (Except.error e, st9) => (Except.error e, st9)
                    | (Except.ok _, st9) =>
                      match snd_soc_read env st9 RT5670_DSP_CTRL5 with
                      | (ret, stA) =>
                        if ret < 0 then
                          (Except.error (SpecErr.busErr Stage.readbackStage ret), stA)
                        else (Except.ok ret, stA)

/-- The C `int` value corresponding to a spec `writeRegister` outcome. -/
def writeResToInt : Except SpecErr Unit → Int
  | Except.ok _ => 0
  | Except.error e => errCode e

/-- The C `int` value corresponding to a spec `readRegister` outcome. -/
def readResToInt : Except SpecErr Int → Int
  | Except.ok v => v
  | Except.error e => errCode e

/-! ### Auxiliary definitions for the statements -/

/-- The state after `k` consecutive polls of the command/status register. -/
def advance (st : St) (k : Nat) : St :=
  ⟨st.pos + k, st.trace ++ List.replicate k (Op.busRead RT5670_DSP_CTRL1)⟩

/-- The busy bit is set in the bus response consumed by the `p`-th
operation, viewed as a status read assigned to a C `unsigned int`. -/
def busyAt (env : Env) (p : Nat) : Prop :=
  toUnsigned (env p) &&& RT5670_DSP_BUSY_MASK ≠ 0

instance (env : Env) (p : Nat) : Decidable (busyAt env p) :=
  inferInstanceAs (Decidable (toUnsigned (env p) &&& RT5670_DSP_BUSY_MASK ≠ 0))

/-- Initial interpreter state. -/
def st0 : St := ⟨0, []⟩

/-- A bus environment in which every operation succeeds and the status
register always reads as not busy. -/
def env0 : Env := fun _ => 0

/-- A bus environment whose first ten status reads report busy and whose
later responses all succeed with a clear busy bit. -/
def envBusy10 : Env := fun p => if p < 10 then (0x8000 : Int) else 0

/-- The state after the power-up hook's reset-bit toggle (set then clear)
and its 10 ms delay, exactly as issued by `rt5670_dsp_event` on
`POST_PMU`. -/
def resetSt (st : St) : St :=
  mdelay (snd_soc_update_bits
    (snd_soc_update_bits st RT5670_DIG_MISC RT5670_RST_DSP RT5670_RST_DSP)
    RT5670_DIG_MISC RT5670_RST_DSP 0) 10

/-! ### Characterization of the busy-wait loop -/

theorem advance_zero (st : St) : advance st 0 = st := by
  simp [advance]

theorem advance_step (st : St) (k : Nat) :
    advance ⟨st.pos + 1, st.trace ++ [Op.busRead RT5670_DSP_CTRL1]⟩ k =
      advance st (k + 1) := by
  simp only [advance, List.replicate_succ, List.append_assoc,
    List.singleton_append, St.mk.injEq]
  refine ⟨by omega, by simp⟩

theorem dsp_done_aux_clear (env : Env) (v : Nat) (st : St) (fuel : Nat)
    (hv : v &&& RT5670_DSP_BUSY_MASK = 0) :
    rt5670_dsp_done_aux env v st fuel = (0, st) := by
  cases fuel <;> simp [rt5670_dsp_done_aux, hv]

theorem dsp_done_aux_fail (env : Env) (fuel : Nat) :
    ∀ (v : Nat) (st : St),
      v &&& RT5670_DSP_BUSY_MASK ≠ 0 →
      (∀ i, i < fuel → busyAt env (st.pos + i)) →
      rt5670_dsp_done_aux env v st fuel = (-EBUSY, advance st fuel) := by
  induction fuel with
  | zero =>
    intro v st hv _
    simp [rt5670_dsp_done_aux, hv, advance_zero]
  | succ fuel ih =>
    intro v st hv h
    have h0 : toUnsigned (env st.pos) &&& RT5670_DSP_BUSY_MASK ≠ 0 := by
      have hb := h 0 (Nat.succ_pos _)
      simpa [busyAt] using hb
    have hs : ∀ i, i < fuel →
        busyAt env ((st.pos + 1) + i) := by
      intro i hi
      have hb := h (i + 1) (by omega)
      have e : st.pos + (i + 1) = st.pos + 1 + i := by omega
      rwa [e] at hb
    simp only [rt5670_dsp_done_aux, snd_soc_read]
    rw [if_pos hv]
    rw [ih (toUnsigned (env st.pos))
      ⟨st.pos + 1, st.trace ++ [Op.busRead RT5670_DSP_CTRL1]⟩ h0 hs]
    rw [advance_step]

theorem dsp_done_aux_succ (env : Env) (fuel : Nat) :
    ∀ (k v : Nat) (st : St),
      k < fuel →
      v &&& RT5670_DSP_BUSY_MASK ≠ 0 →
      (∀ i, i < k → busyAt env (st.pos + i)) →
      ¬ busyAt env (st.pos + k) →
      rt5670_dsp_done_aux env v st fuel = (0, advance st (k + 1)) := by
  induction fuel with
  | zero =>
    intro k v st hk
    exact absurd hk (Nat.not_lt_zero k)
  | succ fuel ih =>
    intro k v st hk hv hbusy hclear
    cases k with
    | zero =>
      have h0 : toUnsigned (env st.pos) &&& RT5670_DSP_BUSY_MASK = 0 := by
        have hc := not_ne_iff.mp (by simpa [busyAt] using hclear)
        simpa using hc
      simp only [rt5670_dsp_done_aux, snd_soc_read]
      rw [if_pos hv]
      rw [dsp_done_aux_clear env _ _ fuel h0]
      simp [advance]
    | succ j =>
      have h0 : toUnsigned (env st.pos) &&& RT5670_DSP_BUSY_MASK ≠ 0 := by
        have hb := hbusy 0 (Nat.succ_pos _)
        simpa [busyAt] using hb
      have hs : ∀ i, i < j → busyAt env ((st.pos + 1) + i) := by
        intro i hi
        have hb := hbusy (i + 1) (by omega)
        have e : st.pos + (i + 1) = st.pos + 1 + i := by omega
        rwa [e] at hb
      have hc : ¬ busyAt env ((st.pos + 1) + j) := by
        have e : st.pos + (j + 1) = st.pos + 1 + j := by omega
        rwa [e] at hclear
      simp only [rt5670_dsp_done_aux, snd_soc_read]
      rw [if_pos hv]
      rw [ih j (toUnsigned (env st.pos))
        ⟨st.pos + 1, st.trace ++ [Op.busRead RT5670_DSP_CTRL1]⟩
        (by omega) h0 hs hc]
      rw [advance_step]

theorem dsp_done_aux_res (env : Env) (fuel : Nat) :
    ∀ (v : Nat) (st : St),
      (rt5670_dsp_done_aux env v st fuel).1 = 0 ∨
        (rt5670_dsp_done_aux env v st fuel).1 = -EBUSY := by
  induction fuel with
  | zero =>
    intro v st
    by_cases hv : v &&& RT5670_DSP_BUSY_MASK ≠ 0 <;>
      simp [rt5670_dsp_done_aux, hv]
  | succ fuel ih =>
    intro v st
    by_cases hv : v &&& RT5670_DSP_BUSY_MASK ≠ 0
    · simp only [rt5670_dsp_done_aux, snd_soc_read]
      rw [if_pos hv]
      exact ih _ _
    · simp [rt5670_dsp_done_aux, hv]

theorem rt5670_dsp_done_fail (env : Env) (st : St)
    (h : ∀ i, i ≤ 11 → busyAt env (st.pos + i)) :
    rt5670_dsp_done env st = (-EBUSY, advance st 12) := by
  have h0 : toUnsigned (env st.pos) &&& RT5670_DSP_BUSY_MASK ≠ 0 := by
    have hb := h 0 (by omega)
    simpa [busyAt] using hb
  have hs : ∀ i, i < 11 → busyAt env ((st.pos + 1) + i) := by
    intro i hi
    have hb := h (i + 1) (by omega)
    have e : st.pos + (i + 1) = st.pos + 1 + i := by omega
    rwa [e] at hb
  show rt5670_dsp_done_aux env (toUnsigned (env st.pos))
    ⟨st.pos + 1, st.trace ++ [Op.busRead RT5670_DSP_CTRL1]⟩ 11 = _
  rw [dsp_done_aux_fail env 11 _ _ h0 hs, advance_step]

theorem rt5670_dsp_done_succ (env : Env) (st : St) (k : Nat) (hk : k ≤ 11)
    (hbusy : ∀ i, i < k → busyAt env (st.pos + i))
    (hclear : ¬ busyAt env (st.pos + k)) :
    rt5670_dsp_done env st = (0, advance st (k + 1)) := by
  cases k with
  | zero =>
    have h0 : toUnsigned (env st.pos) &&& RT5670_DSP_BUSY_MASK = 0 := by
      have hc := not_ne_iff.mp (by simpa [busyAt] using hclear)
      simpa using hc
    show rt5670_dsp_done_aux env (toUnsigned (env st.pos))
      ⟨st.pos + 1, st.trace ++ [Op.busRead RT5670_DSP_CTRL1]⟩ 11 = _
    rw [dsp_done_aux_clear env _ _ 11 h0]
    simp [advance]
  | succ j =>
    have h0 : toUnsigned (env st.pos) &&& RT5670_DSP_BUSY_MASK ≠ 0 := by
      have hb := hbusy 0 (Nat.succ_pos _)
      simpa [busyAt] using hb
    have hs : ∀ i, i < j → busyAt env ((st.pos + 1) + i) := by
      intro i hi
      have hb := hbusy (i + 1) (by omega)
      have e : st.pos + (i + 1) = st.pos + 1 + i := by omega
      rwa [e] at hb
    have hc : ¬ busyAt env ((st.pos + 1) + j) := by
      have e : st.pos + (j + 1) = st.pos + 1 + j := by omega
      rwa [e] at hclear
    show rt5670_dsp_done_aux env (toUnsigned (env st.pos))
      ⟨st.pos + 1, st.trace ++ [Op.busRead RT5670_DSP_CTRL1]⟩ 11 = _
    rw [dsp_done_aux_succ env 11 j _ _ (by omega) h0 hs hc, advance_step]

theorem rt5670_dsp_done_res (env : Env) (st : St) :
    (rt5670_dsp_done env st).1 = 0 ∨ (rt5670_dsp_done env st).1 = -EBUSY := by
  show (rt5670_dsp_done_aux env (toUnsigned (env st.pos))
    ⟨st.pos + 1, st.trace ++ [Op.busRead RT5670_DSP_CTRL1]⟩ 11).1 = 0 ∨ _
  exact dsp_done_aux_res env 11 _ _

theorem rt5670_dsp_done_res' (env : Env) (st : St) (r : Int) (st' : St)
    (h : rt5670_dsp_done env st = (r, st')) : r = 0 ∨ r = -EBUSY := by
  have hd := rt5670_dsp_done_res env st
  rw [h] at hd
  exact hd

theorem specWaitReady_aux_eq (env : Env) (fuel : Nat) :
    ∀ (v : Nat) (st : St),
      specWaitReady_aux env v st fuel =
        ((if (rt5670_dsp_done_aux env v st fuel).1 < 0 then
            Except.error SpecErr.busy
          else Except.ok ()), (rt5670_dsp_done_aux env v st fuel).2) := by
  induction fuel with
  | zero =>
    intro v st
    by_cases hv : v &&& RT5670_DSP_BUSY_MASK ≠ 0 <;>
      simp [specWaitReady_aux, rt5670_dsp_done_aux, hv, EBUSY]
  | succ fuel ih =>
    intro v st
    by_cases hv : v &&& RT5670_DSP_BUSY_MASK ≠ 0
    · simp only [specWaitReady_aux, rt5670_dsp_done_aux, snd_soc_read]
      rw [if_pos hv, if_pos hv]
      exact ih _ _
    · simp [specWaitReady_aux, rt5670_dsp_done_aux, hv]

theorem specWaitReady_eq (env : Env) (st : St) :
    specWaitReady env st =
      ((if (rt5670_dsp_done env st).1 < 0 then Except.error SpecErr.busy
        else Except.ok ()), (rt5670_dsp_done env st).2) := by
  show specWaitReady_aux env (toUnsigned (env st.pos))
    ⟨st.pos + 1, st.trace ++ [Op.busRead RT5670_DSP_CTRL1]⟩ 11 = _
  exact specWaitReady_aux_eq env 11 _ _

/-! ### Claim theorems -/

/-- C1: `rt5670_dsp_done` fails with `-EBUSY` if and only if the busy bit
stays set through more than 10 consecutive poll re-reads — that is, through
the initial status read and all 11 loop re-reads (the loop's `count > 10`
exit); equivalently, iff every one of the status reads at indices 0..11
sees busy.  In particular a status sequence with exactly 10 busy reads
followed by a clear read returns success, and a sequence that stays busy
through the whole budget returns `-EBUSY`. -/
theorem dsp_done_busy_bound (env : Env) (st : St) :
    ((rt5670_dsp_done env st).1 = -EBUSY ↔
      ∀ i, i ≤ 11 → busyAt env (st.pos + i))
    ∧ ((∀ i, i < 10 → busyAt env (st.pos + i)) →
        ¬ busyAt env (st.pos + 10) → (rt5670_dsp_done env st).1 = 0) := by
  constructor
  · constructor
    · intro hres
      by_contra hno
      push_neg at hno
      obtain ⟨i0, hi0, hnb⟩ := hno
      have hex : ∃ i, ¬ busyAt env (st.pos + i) := ⟨i0, hnb⟩
      have hkP : ¬ busyAt env (st.pos + Nat.find hex) := Nat.find_spec hex
      have hkle : Nat.find hex ≤ 11 :=
        le_trans (Nat.find_min' hex hnb) hi0
      have hbusy : ∀ i, i < Nat.find hex → busyAt env (st.pos + i) := by
        intro i hi
        exact not_not.mp (Nat.find_min hex hi)
      have hdone := rt5670_dsp_done_succ env st (Nat.find hex) hkle hbusy hkP
      rw [hdone] at hres
      simp [EBUSY] at hres
    · intro h
      rw [rt5670_dsp_done_fail env st h]
  · intro hb hc
    rw [rt5670_dsp_done_succ env st 10 (by omega) hb hc]

/-- Witness for C1: ten busy status reads followed by a clear one make
`rt5670_dsp_done` succeed. -/
theorem dsp_done_busy_bound_witness :
    (∀ i, i < 10 → busyAt envBusy10 (st0.pos + i))
    ∧ ¬ busyAt envBusy10 (st0.pos + 10)
    ∧ (rt5670_dsp_done envBusy10 st0).1 = 0 :=
  ⟨by decide, by decide,
    (dsp_done_busy_bound envBusy10 st0).2 (by decide) (by decide)⟩

/-- C3: `rt5670_dsp_write` coincides, on every bus environment, with the
spec's `writeRegister` sequence — address write, data write, composed
memory-write command-word write, `waitReady` — where the first failing
step's error is surfaced (so no later bus operation is issued) and success
returns 0 only after all four steps succeed.  The two sides also agree on
the operation trace and response cursor. -/
theorem dsp_write_follows_spec (env : Env) (st : St) (addr data : Nat) :
    rt5670_dsp_write env st addr data =
      (writeResToInt (specWriteRegister env st addr data).1,
        (specWriteRegister env st addr data).2) := by
  simp only [rt5670_dsp_write, specWriteRegister, snd_soc_write,
    memWriteCmdWord, specWaitReady_eq]
  by_cases h1 : env st.pos < 0
  · simp [h1, writeResToInt, errCode]
  · simp only [if_neg h1]
    by_cases h2 : env (st.pos + 1) < 0
    · simp [h2, writeResToInt, errCode]
    · simp only [if_neg h2]
      by_cases h3 : env (st.pos + 1 + 1) < 0
      · simp [h3, writeResToInt, errCode]
      · simp only [if_neg h3]
        rcases hres : rt5670_dsp_done env
            ⟨st.pos + 1 + 1 + 1,
              ((st.trace ++ [Op.busWrite RT5670_DSP_CTRL2 addr]) ++
                [Op.busWrite RT5670_DSP_CTRL3 data]) ++
                [Op.busWrite RT5670_DSP_CTRL1
                  (RT5670_DSP_I2C_AL_16 ||| RT5670_DSP_DL_2 |||
                    RT5670_DSP_CMD_MW ||| DSP_CLK_RATE |||
                    RT5670_DSP_CMD_EN)]⟩ with ⟨r4, st4⟩
        have hd := rt5670_dsp_done_res env
          ⟨st.pos + 1 + 1 + 1,
            ((st.trace ++ [Op.busWrite RT5670_DSP_CTRL2 addr]) ++
              [Op.busWrite RT5670_DSP_CTRL3 data]) ++
              [Op.busWrite RT5670_DSP_CTRL1
                (RT5670_DSP_I2C_AL_16 ||| RT5670_DSP_DL_2 |||
                  RT5670_DSP_CMD_MW ||| DSP_CLK_RATE |||
                  RT5670_DSP_CMD_EN)]⟩
        rw [hres] at hd
        rcases hd with hd | hd
        · have hd' : r4 = 0 := hd
          subst hd'
          simp [writeResToInt, errCode]
        · have hd' : r4 = -EBUSY := hd
          subst hd'
          simp [writeResToInt, errCode, EBUSY]

/-- C2: `rt5670_dsp_read` coincides, on every bus environment and address,
with the spec's `readRegister` sequence — wait, address write, 16-bit
memory-read command write, wait, sub-register `0x26` address write, 1-byte
register-read command write, wait, sub-register `0x25` address write,
1-byte register-read command write, wait, final data-readback read — where
the first failing bus write or `waitReady` aborts the whole operation, its
error is the value returned, and no further bus operations are issued (the
two sides agree on the operation trace and response cursor, hence no
partial result). -/
theorem dsp_read_follows_spec (env : Env) (st : St) (reg : Nat) :
    rt5670_dsp_read env st reg =
      (readResToInt (specReadRegister env st reg).1,
        (specReadRegister env st reg).2) := by
  dsimp only [rt5670_dsp_read, specReadRegister, snd_soc_write, snd_soc_read]
  rw [show (RT5670_DSP_I2C_AL_16 ||| RT5670_DSP_DL_0 ||| RT5670_DSP_RW_MASK |||
    RT5670_DSP_CMD_MR ||| DSP_CLK_RATE ||| RT5670_DSP_CMD_EN) = memReadCmdWord from rfl]
  rw [show (RT5670_DSP_DL_1 ||| RT5670_DSP_CMD_RR ||| RT5670_DSP_RW_MASK |||
    DSP_CLK_RATE ||| RT5670_DSP_CMD_EN) = regReadCmdWord from rfl]
  rw [specWaitReady_eq]
  rcases heq0 : rt5670_dsp_done env st with ⟨r0, s0⟩
  dsimp only
  rcases rt5670_dsp_done_res' _ _ _ _ heq0 with rfl | rfl
  · rw [if_neg (show ¬ ((0 : Int) < 0) by norm_num),
      if_neg (show ¬ ((0 : Int) < 0) by norm_num)]
    dsimp only
    by_cases h1 : env s0.pos < 0
    · rw [if_pos h1, if_pos h1]
      dsimp only [readResToInt, errCode]
    · rw [if_neg h1, if_neg h1]
      by_cases h2 : env (s0.pos + 1) < 0
      · rw [if_pos h2, if_pos h2]
        dsimp only [readResToInt, errCode]
      · rw [if_neg h2, if_neg h2]
        rw [specWaitReady_eq]
        rcases heq1 : rt5670_dsp_done env
          ⟨s0.pos + 1 + 1, s0.trace ++ [Op.busWrite RT5670_DSP_CTRL2 reg] ++
            [Op.busWrite RT5670_DSP_CTRL1 memReadCmdWord]⟩ with ⟨r1, s1⟩
        dsimp only
        rcases rt5670_dsp_done_res' _ _ _ _ heq1 with rfl | rfl
        · rw [if_neg (show ¬ ((0 : Int) < 0) by norm_num),
            if_neg (show ¬ ((0 : Int) < 0) by norm_num)]
          dsimp only
          by_cases h3 : env s1.pos < 0
          · rw [if_pos h3, if_pos h3]
            dsimp only [readResToInt, errCode]
          · rw [if_neg h3, if_neg h3]
            by_cases h4 : env (s1.pos + 1) < 0
            · rw [if_pos h4, if_pos h4]
              dsimp only [readResToInt, errCode]
            · rw [if_neg h4, if_neg h4]
              rw [specWaitReady_eq]
              rcases heq2 : rt5670_dsp_done env
                ⟨s1.pos + 1 + 1, s1.trace ++ [Op.busWrite RT5670_DSP_CTRL2 0x26] ++
                  [Op.busWrite RT5670_DSP_CTRL1 regReadCmdWord]⟩ with ⟨r2, s2⟩
              dsimp only
              rcases rt5670_dsp_done_res' _ _ _ _ heq2 with rfl | rfl
              · rw [if_neg (show ¬ ((0 : Int) < 0) by norm_num),
                  if_neg (show ¬ ((0 : Int) < 0) by norm_num)]
                dsimp only
                by_cases h5 : env s2.pos < 0
                · rw [if_pos h5, if_pos h5]
                  dsimp only [readResToInt, errCode]
                · rw [if_neg h5, if_neg h5]
                  by_cases h6 : env (s2.pos + 1) < 0
                  · rw [if_pos h6, if_pos h6]
                    dsimp only [readResToInt, errCode]
                  · rw [if_neg h6, if_neg h6]
                    rw [specWaitReady_eq]
                    rcases heq3 : rt5670_dsp_done env
                      ⟨s2.pos + 1 + 1, s2.trace ++ [Op.busWrite RT5670_DSP_CTRL2 0x25] ++
                        [Op.busWrite RT5670_DSP_CTRL1 regReadCmdWord]⟩ with ⟨r3, s3⟩
                    dsimp only
                    rcases rt5670_dsp_done_res' _ _ _ _ heq3 with rfl | rfl
                    · rw [if_neg (show ¬ ((0 : Int) < 0) by norm_num),
                        if_neg (show ¬ ((0 : Int) < 0) by norm_num)]
                      dsimp only
                      by_cases h7 : env s3.pos < 0
                      · rw [if_pos h7, if_pos h7]
                        dsimp only [readResToInt, errCode]
                      · rw [if_neg h7, if_neg h7]
                        dsimp only [readResToInt, errCode]
                    · rw [if_pos (show (-EBUSY : Int) < 0 by norm_num [EBUSY]),
                        if_pos (show (-EBUSY : Int) < 0 by norm_num [EBUSY])]
                      dsimp only [readResToInt, errCode]
              · rw [if_pos (show (-EBUSY : Int) < 0 by norm_num [EBUSY]),
                  if_pos (show (-EBUSY : Int) < 0 by norm_num [EBUSY])]
                dsimp only [readResToInt, errCode]
        · rw [if_pos (show (-EBUSY : Int) < 0 by norm_num [EBUSY]),
            if_pos (show (-EBUSY : Int) < 0 by norm_num [EBUSY])]
          dsimp only [readResToInt, errCode]
  · rw [if_pos (show (-EBUSY : Int) < 0 by norm_num [EBUSY]),
      if_pos (show (-EBUSY : Int) < 0 by norm_num [EBUSY])]
    dsimp only [readResToInt, errCode]



theorem dsp_done_all_clear (env : Env) (hclear : ∀ p, ¬ busyAt env p)
    (st : St) : rt5670_dsp_done env st = (0, advance st 1) :=
  rt5670_dsp_done_succ env st 0 (by omega)
    (fun i hi => absurd hi (Nat.not_lt_zero i)) (hclear _)

theorem dsp_write_ok (env : Env) (hok : ∀ p, 0 ≤ env p)
    (hclear : ∀ p, ¬ busyAt env p) (st : St) (addr data : Nat) :
    ∃ st', rt5670_dsp_write env st addr data = (0, st') := by
  have h1 : ¬ env st.pos < 0 := not_lt.mpr (hok _)
  have h2 : ¬ env (st.pos + 1) < 0 := not_lt.mpr (hok _)
  have h3 : ¬ env (st.pos + 1 + 1) < 0 := not_lt.mpr (hok _)
  dsimp only [rt5670_dsp_write, snd_soc_write]
  rw [if_neg h1, if_neg h2, if_neg h3, dsp_done_all_clear env hclear]
  dsimp only
  rw [if_neg (show ¬ ((0 : Int) < 0) by norm_num)]
  exact ⟨_, rfl⟩

theorem write_fw_ok (env : Env) (hok : ∀ p, 0 ≤ env p)
    (hclear : ∀ p, ¬ busyAt env p) (data : FwImage) :
    ∀ (tn pos : Nat) (st : St), (rt5670_write_fw env st data pos tn).1 = 0 := by
  intro tn
  induction tn with
  | zero => intro pos st; rfl
  | succ tab ih =>
    intro pos st
    obtain ⟨st', hw⟩ := dsp_write_ok env hok hclear st
      (((data.getD pos 0) <<< 8) ||| data.getD (pos + 1) 0)
      (((data.getD (pos + 2) 0) <<< 8) ||| data.getD (pos + 3) 0)
    dsimp only [rt5670_write_fw]
    rw [hw]
    dsimp only
    rw [if_neg (show ¬ ((0 : Int) < 0) by norm_num)]
    exact ih _ _

/-- C4: on a loaded image whose byte 0 declares `n` modes, `setMode(n)`
passes the inclusive `mode <= n` validation and proceeds to the
bounds-check-and-replay body (succeeding — returning 0 — whenever the
table is in bounds and every handshake write succeeds), while
`setMode(n+1)` fails with `-EINVAL` and returns the state unchanged, i.e.
issues no register write. -/
theorem set_mode_inclusive_bound (env : Env) (st : St) (data : FwImage)
    (n : Nat) (h0 : data[0]? = some n) :
    rt5670_dsp_set_mode env st (some data) (n + 1) = some (-EINVAL, st)
    ∧ (∀ hi lo tn, data[n * 3 + 1]? = some hi →
        data[n * 3 + 2]? = some lo → data[n * 3 + 3]? = some tn →
        (lo ||| (hi <<< 8)) + tn * 5 ≤ data.length →
        rt5670_dsp_set_mode env st (some data) n =
          some (rt5670_write_fw env st data (lo ||| (hi <<< 8)) tn))
    ∧ (∀ (pos tn : Nat) (st' : St), (∀ p, 0 ≤ env p) →
        (∀ p, ¬ busyAt env p) →
        (rt5670_write_fw env st' data pos tn).1 = 0) := by
  refine ⟨?_, ?_, ?_⟩
  · have hn : ¬ (n + 1 ≤ n) := by omega
    simp [rt5670_dsp_set_mode, h0, hn]
  · intro hi lo tn hhi hlo htn hbound
    have hb : ¬ ((lo ||| (hi <<< 8)) + tn * 5 > data.length) := by omega
    simp [rt5670_dsp_set_mode, h0, hhi, hlo, htn, hb]
  · intro pos tn st' hok hclear
    exact write_fw_ok env hok hclear data tn pos st'

/-- Witness for C4: a four-byte image declaring `n = 0`; mode 1 is
rejected with `-EINVAL` and no state change, mode 0 replays its (empty)
table and succeeds. -/
theorem set_mode_inclusive_bound_witness :
    ([0, 0, 0, 0] : FwImage)[0]? = some 0
    ∧ rt5670_dsp_set_mode env0 st0 (some [0, 0, 0, 0]) 1 = some (-EINVAL, st0)
    ∧ rt5670_dsp_set_mode env0 st0 (some [0, 0, 0, 0]) 0 = some (0, st0) := by
  have h := set_mode_inclusive_bound env0 st0 [0, 0, 0, 0] 0 (by decide)
  refine ⟨by decide, h.1, ?_⟩
  have h2 := h.2.1 0 0 0 (by decide) (by decide) (by decide) (by decide)
  rw [h2]
  decide

/-- C5: when the in-range mode's directory slot yields an offset and entry
count whose table `pos + tab_num * 5` exceeds the image's length,
`rt5670_dsp_set_mode` returns `-EINVAL` with the state unchanged: no
register write is issued and the replay (which alone would read the table
bytes) is never invoked, so no byte past the end of the buffer is read. -/
theorem set_mode_corrupt_guard (env : Env) (st : St) (data : FwImage)
    (mode n hi lo tn : Nat)
    (h0 : data[0]? = some n) (hm : mode ≤ n)
    (hhi : data[mode * 3 + 1]? = some hi)
    (hlo : data[mode * 3 + 2]? = some lo)
    (htn : data[mode * 3 + 3]? = some tn)
    (hover : (lo ||| (hi <<< 8)) + tn * 5 > data.length) :
    rt5670_dsp_set_mode env st (some data) mode = some (-EINVAL, st) := by
  simp [rt5670_dsp_set_mode, h0, hm, hhi, hlo, htn, hover]

/-- Witness for C5: a four-byte image whose mode-0 slot declares one
five-byte entry at offset 0, overflowing the buffer. -/
theorem set_mode_corrupt_guard_witness :
    (0 ||| (0 <<< 8)) + 1 * 5 > ([0, 0, 0, 1] : FwImage).length
    ∧ rt5670_dsp_set_mode env0 st0 (some [0, 0, 0, 1]) 0 =
        some (-EINVAL, st0) :=
  ⟨by decide, set_mode_corrupt_guard env0 st0 [0, 0, 0, 1] 0 0 0 0 1
    (by decide) (by decide) (by decide) (by decide) (by decide) (by decide)⟩

/-- Counterexample to C6: `rt5670_dsp_fw_loaded` stores any non-NULL
delivered buffer unconditionally, so a second delivery is not a no-op —
delivering `[2]` after `[1]` leaves `[2]` stored, not the original
`[1]`. -/
theorem fw_loaded_overwrite_cex :
    rt5670_dsp_fw_loaded (some [2]) (rt5670_dsp_fw_loaded (some [1]) none) =
      some [2]
    ∧ rt5670_dsp_fw_loaded (some [2]) (rt5670_dsp_fw_loaded (some [1]) none) ≠
        some [1] := by
  decide

/-- C6 (amended): the firmware-loaded callback stores every non-NULL
delivered buffer, overwriting whatever was stored before (so the last
non-NULL delivery wins, not the first); only a NULL delivery leaves the
stored image unchanged. -/
theorem fw_loaded_last_delivery_wins (stored : Option FwImage)
    (f : FwImage) :
    rt5670_dsp_fw_loaded (some f) stored = some f
    ∧ rt5670_dsp_fw_loaded none stored = stored :=
  ⟨rfl, rfl⟩

/-- Counterexample to C7: the three failure kinds are not distinguishable —
no-firmware, out-of-range mode and corrupt table all return the same
`some (-EINVAL, st)` value. -/
theorem set_mode_error_kinds_cex :
    rt5670_dsp_set_mode env0 st0 none 0 = some (-EINVAL, st0)
    ∧ rt5670_dsp_set_mode env0 st0 (some [0]) 1 = some (-EINVAL, st0)
    ∧ rt5670_dsp_set_mode env0 st0 (some [0, 0, 0, 1]) 0 =
        some (-EINVAL, st0) := by
  decide

/-- C7 (amended): with no firmware loaded, `rt5670_dsp_set_mode` fails with
`-EINVAL` for every mode (issuing no bus operation — the state is returned
unchanged); this is the same `-EINVAL` value the function returns for an
out-of-range mode and for a table exceeding the buffer, so the three
failure kinds are not distinguishable by return value. -/
theorem set_mode_not_ready_einval (env : Env) (st : St) (mode : Nat) :
    rt5670_dsp_set_mode env st none mode = some (-EINVAL, st)
    ∧ rt5670_dsp_set_mode env st (some [0]) (mode + 1) = some (-EINVAL, st) := by
  constructor
  · rfl
  · have hn : ¬ (mode + 1 ≤ 0) := by omega
    simp [rt5670_dsp_set_mode, hn]

/-- C8: for an in-range mode whose directory slot bytes are readable, the
slot is decoded per the layout — byte `3*mode+1` is the offset high byte,
byte `3*mode+2` the offset low byte, combined as `hi <<< 8 ||| lo` into
the table offset, and byte `3*mode+3` is the entry count — and
`rt5670_dsp_set_mode` proceeds with exactly these decoded values. -/
theorem set_mode_directory_layout (env : Env) (st : St) (data : FwImage)
    (mode n hi lo tn : Nat)
    (h0 : data[0]? = some n) (hm : mode ≤ n)
    (hhi : data[mode * 3 + 1]? = some hi)
    (hlo : data[mode * 3 + 2]? = some lo)
    (htn : data[mode * 3 + 3]? = some tn) :
    rt5670_dsp_set_mode env st (some data) mode =
      (if ((hi <<< 8) ||| lo) + tn * 5 > data.length then some (-EINVAL, st)
       else some (rt5670_write_fw env st data ((hi <<< 8) ||| lo) tn)) := by
  have hcomm : lo ||| (hi <<< 8) = (hi <<< 8) ||| lo := Nat.lor_comm _ _
  simp only [rt5670_dsp_set_mode, h0, hhi, hlo, htn, if_pos hm, hcomm]

/-- Witness for C8: the image `[0, 1, 4, 0]` at mode 0 decodes offset
`1 <<< 8 ||| 4 = 260` and entry count 0; the offset alone exceeds the
4-byte image, so the bounds check fires. -/
theorem set_mode_directory_layout_witness :
    rt5670_dsp_set_mode env0 st0 (some [0, 1, 4, 0]) 0 =
      some (-EINVAL, st0) := by
  have h := set_mode_directory_layout env0 st0 [0, 1, 4, 0] 0 0 1 4 0
    (by decide) (by decide) (by decide) (by decide) (by decide)
  rw [h]
  decide

/-- C9: on the power-up event the hook first records the reset-bit set,
the reset-bit clear and the 10 ms delay (`resetSt`), then calls
`rt5670_dsp_set_mode` on the resulting state with the current requested
mode, and returns 0 whatever `setMode` returned — in particular with no
firmware loaded (`setMode` fails with `-EINVAL`) the hook still completes
the reset sequence and reports success. -/
theorem dsp_event_pmu_reset_then_mode (env : Env) (st : St)
    (fw : Option FwImage) (mode : Nat) :
    (∀ (r : Int) (st' : St),
      rt5670_dsp_set_mode env (resetSt st) fw mode = some (r, st') →
      rt5670_dsp_event env st fw mode DapmEvent.postPmu = some (0, st'))
    ∧ rt5670_dsp_event env st none mode DapmEvent.postPmu =
        some (0, resetSt st)
    ∧ resetSt st = ⟨st.pos, st.trace ++
        [Op.updateBits RT5670_DIG_MISC RT5670_RST_DSP RT5670_RST_DSP,
         Op.updateBits RT5670_DIG_MISC RT5670_RST_DSP 0, Op.mdelay 10]⟩ := by
  refine ⟨?_, rfl, ?_⟩
  · intro r st' h
    simp only [resetSt] at h
    dsimp only [rt5670_dsp_event]
    rw [h]
  · simp [resetSt, mdelay, snd_soc_update_bits]

/-- Witness for C9: with a loaded trivial image and mode 0, `setMode`
succeeds on the post-reset state and the hook returns 0 with that
state. -/
theorem dsp_event_pmu_reset_then_mode_witness :
    rt5670_dsp_set_mode env0 (resetSt st0) (some [0, 0, 0, 0]) 0 =
      some (0, resetSt st0)
    ∧ rt5670_dsp_event env0 st0 (some [0, 0, 0, 0]) 0 DapmEvent.postPmu =
        some (0, resetSt st0) := by
  have h : rt5670_dsp_set_mode env0 (resetSt st0) (some [0, 0, 0, 0]) 0 =
      some (0, resetSt st0) := by decide
  exact ⟨h,
    (dsp_event_pmu_reset_then_mode env0 st0 (some [0, 0, 0, 0]) 0).1 0
      (resetSt st0) h⟩

/-- C10: the directory-slot reads of `rt5670_dsp_set_mode` are not
bounds-checked: the one-byte image `[1]` declares `n = 1`, so mode 1
passes validation, yet its slot bytes `3*mode+1 .. 3*mode+3` lie past the
end of the buffer, and the embedding's out-of-bounds branch (`none`) is
reached. -/
theorem set_mode_directory_oob_reachable :
    ∃ (data : FwImage) (mode n : Nat),
      data[0]? = some n ∧ mode ≤ n ∧ data.length < 3 * mode + 4 ∧
      data[mode * 3 + 1]? = none ∧ data[mode * 3 + 2]? = none ∧
      data[mode * 3 + 3]? = none ∧
      rt5670_dsp_set_mode env0 st0 (some data) mode = none :=
  ⟨[1], 1, 1, by decide, by decide, by decide, by decide, by decide,
    by decide, by decide⟩


end RT5670
